import Mathlib

set_option maxRecDepth 8000

/- Shallow embedding of the PDTM extension's signal-evidence classification
and decision engine: URL/domain utilities, RP/IdP inference, the evidence
aggregator, risk scoring, the management-state decision logic, and the
per-domain activity-state update.

Modelling conventions: JS numbers are rationals; JS object maps are
functions into Option; fallible operations return Option; async storage
reads are passed in as explicit arguments. -/

namespace PDTM

-- Activity levels, from signals/activity_levels.ts (plain string values,
-- exactly as the JS code compares them).
namespace ActivityLevels

def VIEW : String := "view"

def ACCOUNT : String := "account"

def UGC : String := "ugc"

def TRANSACTION : String := "transaction"

end ActivityLevels

/-- ActivityConfidence exactly as declared in src/signals/activity_levels.ts:
a discrete three-valued label ("low" | "medium" | "high"). The numeric
consumers in storage/management_state.js document confidence as a number in
[0,1] instead; see the confidence bounds theorem below. -/
inductive ActivityConfidence where
  | low
  | medium
  | high
deriving DecidableEq

/-- Management states, from storage/management_state.js (MANAGEMENT_STATE). -/
inductive ManagementState where
  | NONE
  | NEEDS_REVIEW
  | SUGGESTED
  | PINNED
deriving DecidableEq

/-- JS truthiness of an optional string (null/undefined and "" are falsy). -/
def jsTruthy : Option String → Bool
  | none => false
  | some s => !(s == "")

/-- computeBaseScore from storage/management_state.js: the BASE_SCORES
object lookup with `|| 5` fallback (no table value is falsy, so the
fallback fires exactly on unrecognized levels). -/
def computeBaseScore (level : String) : ℚ :=
  if level = ActivityLevels.TRANSACTION then 70
  else if level = ActivityLevels.ACCOUNT then 30
  else if level = ActivityLevels.UGC then 45
  else if level = ActivityLevels.VIEW then 5
  else 5

/-- JS Math.round on a rational: half-up rounding, `⌊q + 1/2⌋`. -/
def jsRound (q : ℚ) : ℤ :=
  ⌊q + 1/2⌋

/-- computeRiskScore from storage/management_state.js:
Math.round(Math.max(0, Math.min(100, base * confidence))). -/
def computeRiskScore (base : ℚ) (confidence : ℚ) : ℤ :=
  jsRound (max 0 (min 100 (base * confidence)))

/-- mapToManagementState from storage/management_state.js; the JS early
returns are flattened into one if-chain (first matching rule wins). -/
def mapToManagementState (level : String) (score : ℚ) (confidence : ℚ)
    (rp_domain : Option String) (seenCount : ℕ) (isPinned : Bool) :
    ManagementState :=
  if isPinned then ManagementState.PINNED
  else if confidence ≥ 8/10 ∧
      (level = ActivityLevels.TRANSACTION ∨
        (level = ActivityLevels.ACCOUNT ∧ (jsTruthy rp_domain ∨ score ≥ 20))) then
    ManagementState.SUGGESTED
  else if level ≠ ActivityLevels.VIEW ∧ (confidence ≥ 6/10 ∨ seenCount > 50) then
    ManagementState.NEEDS_REVIEW
  else if level = ActivityLevels.VIEW ∧ seenCount > 50 then
    ManagementState.NEEDS_REVIEW
  else ManagementState.NONE

-- ### URL / domain utilities ###
-- String processing is done on explicit character lists so that every
-- operation is a plain structural recursion.

/-- Split a character list at every occurrence of a separator character. -/
def splitListOn (sep : Char) : List Char → List (List Char)
  | [] => [[]]
  | c :: rest =>
    let r := splitListOn sep rest
    if c = sep then [] :: r
    else
      match r with
      | [] => [[c]]
      | h :: t => (c :: h) :: t

/-- Join character lists with a separator character. -/
def joinWith (sep : Char) : List (List Char) → List Char
  | [] => []
  | [h] => h
  | h :: t => h ++ sep :: joinWith sep t

/-- Split a character list at the first occurrence of a (nonempty)
substring pattern; none if the pattern does not occur. -/
def splitFirstSub (pat : List Char) : List Char → Option (List Char × List Char)
  | [] => none
  | c :: rest =>
    if pat.isPrefixOf (c :: rest) then some ([], (c :: rest).drop pat.length)
    else
      match splitFirstSub pat rest with
      | none => none
      | some (pre, post) => some (c :: pre, post)

/-- Substring occurrence test. -/
def hasSub (pat : List Char) (l : List Char) : Bool :=
  (splitFirstSub pat l).isSome

/-- Split a URL string into (scheme, remainder) at the first "://";
none models `new URL(...)` throwing on a scheme-less string. -/
def schemeSplit (url : List Char) : Option (List Char × List Char) :=
  splitFirstSub "://".toList url

/-- The authority's host part: everything up to the first of / ? # :. -/
def takeHost (rest : List Char) : List Char :=
  rest.takeWhile (fun c => !(c == '/' || c == '?' || c == '#' || c == ':'))

/-- Modelled from the spec: getDomain (normalizeHost) in utils/domain.js is
not under src; per spec section 4.1 and the in-repo service-worker variant,
it parses the URL, accepts only http/https, and returns the hostname, with
null for malformed input. -/
def getDomain (urlStr : String) : Option String :=
  match schemeSplit urlStr.toList with
  | none => none
  | some (scheme, rest) =>
    if String.mk scheme = "http" ∨ String.mk scheme = "https" then
      some (String.mk (takeHost rest))
    else none

/-- Modelled from the spec: getETLDPlusOne in utils/domain.js is not under
src; per spec section 4.1 it normalizes a hostname to its registrable
domain (last two dot-separated labels), null when that is not possible. -/
def getETLDPlusOne : Option String → Option String
  | none => none
  | some host =>
    match (splitListOn '.' host.toList).reverse with
    | tld :: sld :: _ =>
      if tld = [] ∨ sld = [] then none
      else some (String.mk (sld ++ '.' :: tld))
    | _ => none

/-- Hex digit value, for percent-decoding. -/
def hexVal (c : Char) : Option ℕ :=
  if '0' ≤ c ∧ c ≤ '9' then some (c.toNat - '0'.toNat)
  else if 'a' ≤ c ∧ c ≤ 'f' then some (c.toNat - 'a'.toNat + 10)
  else if 'A' ≤ c ∧ c ≤ 'F' then some (c.toNat - 'A'.toNat + 10)
  else none

/-- Percent-decoding as URLSearchParams performs it: %XY becomes the byte
XY, + becomes a space, anything else passes through. -/
def percentDecode : List Char → List Char
  | [] => []
  | '%' :: a :: b :: rest =>
    match hexVal a, hexVal b with
    | some x, some y => Char.ofNat (16 * x + y) :: percentDecode rest
    | _, _ => '%' :: percentDecode (a :: b :: rest)
  | '+' :: rest => ' ' :: percentDecode rest
  | c :: rest => c :: percentDecode rest

/-- The query component of a URL: after the first ? of the pre-fragment
part. -/
def queryOf (url : List Char) : List Char :=
  let beforeFrag := (splitListOn '#' url).headD []
  match splitListOn '?' beforeFrag with
  | [] => []
  | [_] => []
  | _ :: rest => joinWith '?' rest

/-- One key=value query pair (value empty when = is absent). -/
def parsePair (kv : List Char) : List Char × List Char :=
  match splitListOn '=' kv with
  | [] => ([], [])
  | k :: vs => (k, joinWith '=' vs)

/-- url.searchParams.get(key): the decoded value of the first query pair
whose decoded key matches, or none. -/
def getParam (urlStr : String) (key : String) : Option String :=
  let pairs := ((splitListOn '&' (queryOf urlStr.toList)).filter
    (fun kv => !(kv.isEmpty))).map parsePair
  (pairs.find? (fun p => String.mk (percentDecode p.1) == key)).map
    (fun p => String.mk (percentDecode p.2))

/-- extractRedirectUriDomain from utils/url_extract.js: read the
redirect_uri (or, when that is falsy, return_to) query parameter, reduce it
to its eTLD+1 domain, and return null on malformed input, a missing
parameter, or a parse failure (the try/catch around `new URL`). -/
def extractRedirectUriDomain (urlStr : String) : Option String :=
  match schemeSplit urlStr.toList with
  | none => none
  | some _ =>
    let redirectUri :=
      match getParam urlStr "redirect_uri" with
      | some s => if s = "" then getParam urlStr "return_to" else some s
      | none => getParam urlStr "return_to"
    match redirectUri with
    | none => none
    | some v => if v = "" then none else getETLDPlusOne (getDomain v)

-- ### Signal vocabulary, evidence weights, aux constants ###

-- Signal-code string constants. The vocabulary file signals/signal_codes.ts
-- is not under src; the DOM codes are fixed by content/content_probe.js,
-- url_login by tests/chapter3_runner.js, and the rest are modelled from the
-- spec's vocabulary description (section 3).
namespace SignalCodes

def URL_LOGIN : String := "url_login"

def URL_PAYMENT : String := "url_payment"

def URL_EDITOR : String := "url_editor"

def DOM_PASSWORD : String := "dom_password"

def DOM_EDITOR : String := "dom_editor"

def DOM_PAYMENT : String := "dom_payment"

end SignalCodes

-- Evidence-type string constants. signals/evidence_types.js is not under
-- src; the names are modelled from the spec and from the key names used in
-- src/signals/evidence_weights.js.
namespace EvidenceTypes

def REDIRECT_URI_MATCH : String := "redirect_uri_match"

def KNOWN_IDP : String := "known_idp"

def STRONG_PATH : String := "strong_path"

def OAUTH_PARAMS : String := "oauth_params"

def OPENER_LINK : String := "opener_link"

def TEMPORAL_CHAIN : String := "temporal_chain"

end EvidenceTypes

/-- The known SignalCode vocabulary (Object.values(SIGNAL_CODES)): URL- and
content-derived codes plus the relationship evidence codes. -/
def SIGNAL_CODES : List String :=
  [SignalCodes.URL_LOGIN, SignalCodes.URL_PAYMENT, SignalCodes.URL_EDITOR,
   SignalCodes.DOM_PASSWORD, SignalCodes.DOM_EDITOR, SignalCodes.DOM_PAYMENT,
   EvidenceTypes.REDIRECT_URI_MATCH, EvidenceTypes.KNOWN_IDP,
   EvidenceTypes.STRONG_PATH, EvidenceTypes.OAUTH_PARAMS,
   EvidenceTypes.OPENER_LINK, EvidenceTypes.TEMPORAL_CHAIN]

/-- EVIDENCE_WEIGHTS from src/signals/evidence_weights.js, as an object
lookup: the additive weight of each strong-evidence signal. -/
def strongWeightOf (c : String) : Option ℚ :=
  if c = EvidenceTypes.REDIRECT_URI_MATCH then some (6/10)
  else if c = EvidenceTypes.KNOWN_IDP then some (5/10)
  else if c = EvidenceTypes.STRONG_PATH then some (3/10)
  else if c = EvidenceTypes.OAUTH_PARAMS then some (2/10)
  else if c = EvidenceTypes.OPENER_LINK then some (2/10)
  else if c = EvidenceTypes.TEMPORAL_CHAIN then some (2/10)
  else none

/-- A signal is strong when it is present in the Evidence Weight Table. -/
def isStrongSignal (c : String) : Bool :=
  (strongWeightOf c).isSome

/-- The weight of a strong signal (0 outside the table). -/
def strongWeight (c : String) : ℚ :=
  (strongWeightOf c).getD 0

/-- The auxiliary (content-derived) signal codes governed by AUX_CONSTANTS. -/
def AUX_SIGNAL_CODES : List String :=
  [SignalCodes.DOM_PASSWORD, SignalCodes.DOM_EDITOR, SignalCodes.DOM_PAYMENT]

/-- Membership in the auxiliary signal family. -/
def isAuxSignal (c : String) : Bool :=
  decide (c ∈ AUX_SIGNAL_CODES)

/-- The shape of AUX_CONSTANTS from src/signals/activity_levels.ts. -/
structure AuxConstants where
  MAX_BONUS : ℚ
  MIN_VAL : ℚ
  MAX_VAL : ℚ
  CAP_WITHOUT_STRONG_EVIDENCE : ℚ

/-- AUX_CONSTANTS from src/signals/activity_levels.ts. -/
def AUX_CONSTANTS : AuxConstants :=
  { MAX_BONUS := 1/10
    MIN_VAL := 1/20
    MAX_VAL := 1/10
    CAP_WITHOUT_STRONG_EVIDENCE := 6/10 }

/-- Deduplication keeping the first occurrence of each code. -/
def dedupFirstAux (seen : List String) : List String → List String
  | [] => []
  | x :: xs =>
    if x ∈ seen then dedupFirstAux seen xs
    else x :: dedupFirstAux (x :: seen) xs

/-- Deduplicate a signal list, preserving first-encountered order. -/
def dedupFirst (l : List String) : List String :=
  dedupFirstAux [] l

/-- Signals whose presence marks the TRANSACTION category. -/
def TRANSACTION_SIGNALS : List String :=
  [SignalCodes.URL_PAYMENT, SignalCodes.DOM_PAYMENT]

/-- Signals whose presence marks the UGC category. -/
def UGC_SIGNALS : List String :=
  [SignalCodes.URL_EDITOR, SignalCodes.DOM_EDITOR]

/-- Signals whose presence marks the ACCOUNT category. -/
def ACCOUNT_SIGNALS : List String :=
  [SignalCodes.URL_LOGIN, SignalCodes.DOM_PASSWORD,
   EvidenceTypes.REDIRECT_URI_MATCH, EvidenceTypes.KNOWN_IDP,
   EvidenceTypes.STRONG_PATH, EvidenceTypes.OAUTH_PARAMS,
   EvidenceTypes.OPENER_LINK, EvidenceTypes.TEMPORAL_CHAIN]

/-- Modelled from the spec: level selection (spec section 4.4 step 4, part
of evaluateSignals in signals/heuristics.js, not under src): evaluate the
categories in descending severity; the highest category with a present
signal wins, default VIEW. -/
def levelFor (signals : List String) : String :=
  if signals.any (fun c => decide (c ∈ TRANSACTION_SIGNALS)) then
    ActivityLevels.TRANSACTION
  else if signals.any (fun c => decide (c ∈ UGC_SIGNALS)) then
    ActivityLevels.UGC
  else if signals.any (fun c => decide (c ∈ ACCOUNT_SIGNALS)) then
    ActivityLevels.ACCOUNT
  else ActivityLevels.VIEW

/-- ActivityEstimation as produced per classification event and consumed
numerically by storage/management_state.js (confidence documented there as
a number in [0,1]). -/
structure ActivityEstimation where
  level : String
  confidence : ℚ
  reasons : List String
deriving DecidableEq

/-- Modelled from the spec: evaluateSignals in signals/heuristics.js is not
under src; per spec section 4.3, signals are deduplicated and partitioned
into strong (Evidence Weight Table) and auxiliary (content-derived); strong
confidence is the sum of matched weights; auxiliary contributions are
clamped per-signal to [MIN_VAL, MAX_VAL] and the auxiliary total to
MAX_BONUS; the total is clamped to [0,1] and, when strong confidence is
zero, capped at CAP_WITHOUT_STRONG_EVIDENCE; reasons are the matched codes
in first-encountered order. The per-signal auxiliary contribution values
are not fixed by the spec, so they are taken as a parameter. -/
def evaluateSignals (auxContribution : String → ℚ) (signals : List String) :
    ActivityEstimation :=
  let uniq := dedupFirst signals
  let strongConfidence := ((uniq.filter isStrongSignal).map strongWeight).sum
  let auxTotal := ((uniq.filter isAuxSignal).map
    (fun c => max AUX_CONSTANTS.MIN_VAL
      (min AUX_CONSTANTS.MAX_VAL (auxContribution c)))).sum
  let auxConfidence := min AUX_CONSTANTS.MAX_BONUS auxTotal
  let raw := max 0 (min 1 (strongConfidence + auxConfidence))
  let confidence :=
    if strongConfidence = 0 then
      min raw AUX_CONSTANTS.CAP_WITHOUT_STRONG_EVIDENCE
    else raw
  { level := levelFor uniq
    confidence := confidence
    reasons := uniq.filter (fun c => isStrongSignal c || isAuxSignal c) }

/-- Modelled from the spec: extractUrlSignals in signals/heuristics.js is
not under src; per spec section 4.4 step 2 it derives signals from the
URL's path/query shape (login-like, payment-like, editor-like markers and
OAuth-parameter shapes); tests/chapter3_runner.js fixes that the keyword
"auth" anywhere in the URL yields url_login. -/
def extractUrlSignals (url : String) : List String :=
  (if hasSub "login".toList url.toList ∨ hasSub "auth".toList url.toList ∨
      hasSub "signin".toList url.toList then [SignalCodes.URL_LOGIN] else []) ++
  (if hasSub "checkout".toList url.toList ∨ hasSub "payment".toList url.toList ∨
      hasSub "billing".toList url.toList then [SignalCodes.URL_PAYMENT] else []) ++
  (if hasSub "edit".toList url.toList ∨ hasSub "compose".toList url.toList ∨
      hasSub "upload".toList url.toList then [SignalCodes.URL_EDITOR] else []) ++
  (if (getParam url "redirect_uri").isSome ∨ (getParam url "client_id").isSome
    then [EvidenceTypes.OAUTH_PARAMS] else [])

/-- classify from the classifier job in src/signals/evidence_weights.js
(Recommendation A variant): validate explicit signals against the known
vocabulary (unknown ones are dropped with a warning), merge with the
URL-derived signals, and evaluate. -/
def classify (auxContribution : String → ℚ) (url : String)
    (explicitSignals : List String) : ActivityEstimation :=
  let validatedSignals := explicitSignals.filter
    (fun s => decide (s ∈ SIGNAL_CODES))
  let urlSignals := extractUrlSignals url
  evaluateSignals auxContribution (urlSignals ++ validatedSignals)

-- ### RP/IdP inference and temporal round-trip detection ###

/-- One SessionContext event: (domain, timestamp, eventType). -/
structure SessionEvent where
  domain : String
  ts : ℤ
  eventType : String
deriving DecidableEq

/-- A tab's session context; events is Option to model a context object
whose events field is null/undefined. -/
structure SessionContext where
  events : Option (List SessionEvent)
deriving DecidableEq

/-- Drop elements up to and including the first occurrence of a target. -/
def findFrom (target : String) : List String → Option (List String)
  | [] => none
  | x :: xs => if x = target then some xs else findFrom target xs

/-- Modelled from the spec: isRoundtrip in utils/roundtrip.js is not under
src; per spec section 4.2 it is a three-token subsequence match of
RP, IdP, RP over the domain projection of the ordered event sequence. -/
def isRoundtrip (rpCandidate : String) (idpCandidate : String)
    (events : List SessionEvent) : Bool :=
  let doms := events.map (fun e => e.domain)
  (((findFrom rpCandidate doms).bind (findFrom idpCandidate)).bind
    (findFrom rpCandidate)).isSome

/-- checkTemporalRoundtrip from the RP/IdP inference module (src/unnamed/
part_004): guard against missing or identical candidates, then against a
missing session context or event list, then delegate to isRoundtrip. The
context argument stands for the awaited getSessionContext(tabId) result. -/
def checkTemporalRoundtrip (rpDomain : Option String) (idpDomain : Option String)
    (context : Option SessionContext) : Bool :=
  if !(jsTruthy rpDomain) || !(jsTruthy idpDomain) || rpDomain == idpDomain then
    false
  else
    match context with
    | none => false
    | some c =>
      match c.events with
      | none => false
      | some evs =>
        isRoundtrip (rpDomain.getD "") (idpDomain.getD "") evs

-- ### Per-domain activity state ###

/-- DomainActivityState records, from the activity state repository
(src/unnamed/part_002); counts_by_level is a JS object, modelled as a total
function defaulting to 0. -/
structure DomainActivityRecord where
  domain : String
  last_estimation_level : String
  last_estimation_ts : ℤ
  counts_by_level : String → ℕ
  last_account_touch_ts : Option ℤ
  last_transaction_signal_ts : Option ℤ

/-- The fresh record initialized for a domain not yet in the map. -/
def initActivityRecord (domain : String) : DomainActivityRecord :=
  { domain := domain
    last_estimation_level := ActivityLevels.VIEW
    last_estimation_ts := 0
    counts_by_level := fun _ => 0
    last_account_touch_ts := none
    last_transaction_signal_ts := none }

/-- updateActivityState from the activity state repository (src/unnamed/
part_002): read-modify-write of the whole state map; increment the
estimation level's counter, refresh the metadata, and stamp the
account/transaction touch timestamps for those levels. -/
def updateActivityState (domain : String) (estimation : ActivityEstimation)
    (timestamp : ℤ) (stateMap : String → Option DomainActivityRecord) :
    String → Option DomainActivityRecord :=
  let record := (stateMap domain).getD (initActivityRecord domain)
  let updated : DomainActivityRecord :=
    { record with
      counts_by_level := fun l =>
        if l = estimation.level then record.counts_by_level l + 1
        else record.counts_by_level l
      last_estimation_level := estimation.level
      last_estimation_ts := timestamp
      last_account_touch_ts :=
        if estimation.level = ActivityLevels.ACCOUNT then some timestamp
        else record.last_account_touch_ts
      last_transaction_signal_ts :=
        if estimation.level = ActivityLevels.TRANSACTION then some timestamp
        else record.last_transaction_signal_ts }
  fun d => if d = domain then some updated else stateMap d


-- ### Helper lemmas shared by the claim theorems ###

theorem dedupFirstAux_subset (l : List String) :
    ∀ seen : List String, ∀ x ∈ dedupFirstAux seen l, x ∈ l := by
  induction l with
  | nil => intro seen x hx; simp [dedupFirstAux] at hx
  | cons a t ih =>
    intro seen x hx
    unfold dedupFirstAux at hx
    split_ifs at hx with hmem
    · exact List.mem_cons_of_mem a (ih seen x hx)
    · rcases List.mem_cons.mp hx with rfl | hx2
      · exact List.mem_cons_self _ _
      · exact List.mem_cons_of_mem a (ih (a :: seen) x hx2)

theorem dedupFirst_subset (l : List String) : ∀ x ∈ dedupFirst l, x ∈ l :=
  dedupFirstAux_subset l []

theorem strongOrAux_mem_vocabulary (c : String)
    (h : (isStrongSignal c || isAuxSignal c) = true) : c ∈ SIGNAL_CODES := by
  have h2 := h
  simp only [Bool.or_eq_true] at h2
  rcases h2 with hs | ha
  · unfold isStrongSignal strongWeightOf at hs
    split_ifs at hs with h1 h2 h3 h4 h5 h6
    · subst h1; decide
    · subst h2; decide
    · subst h3; decide
    · subst h4; decide
    · subst h5; decide
    · subst h6; decide
    · simp at hs
  · unfold isAuxSignal at ha
    have hm := of_decide_eq_true ha
    simp only [AUX_SIGNAL_CODES, List.mem_cons, List.not_mem_nil, or_false] at hm
    rcases hm with rfl | rfl | rfl <;> decide

/-- C6: the temporal round-trip check returns false whenever the RP or IdP
candidate is absent or both are equal, and whenever the session context or
its event list is absent; on a genuine RP, IdP, RP session it does fire. -/
theorem checkTemporalRoundtrip_guards :
    (∀ (idp : Option String) (ctx : Option SessionContext),
      checkTemporalRoundtrip none idp ctx = false) ∧
    (∀ (rp : Option String) (ctx : Option SessionContext),
      checkTemporalRoundtrip rp none ctx = false) ∧
    (∀ (rp idp : Option String) (ctx : Option SessionContext),
      rp = idp → checkTemporalRoundtrip rp idp ctx = false) ∧
    (∀ rp idp : Option String, checkTemporalRoundtrip rp idp none = false) ∧
    (∀ (rp idp : Option String) (c : SessionContext),
      c.events = none → checkTemporalRoundtrip rp idp (some c) = false) ∧
    checkTemporalRoundtrip (some "rp.example") (some "idp.example")
        (some (SessionContext.mk (some
          [SessionEvent.mk "rp.example" 1 "page_view",
           SessionEvent.mk "idp.example" 2 "page_view",
           SessionEvent.mk "rp.example" 3 "page_view"]))) =
      true := by
  refine ⟨?_, ?_, ?_, ?_, ?_, by decide⟩
  · intro idp ctx
    simp [checkTemporalRoundtrip, jsTruthy]
  · intro rp ctx
    simp [checkTemporalRoundtrip, jsTruthy]
  · intro rp idp ctx h
    subst h
    simp [checkTemporalRoundtrip]
  · intro rp idp
    unfold checkTemporalRoundtrip
    split <;> rfl
  · intro rp idp c h
    unfold checkTemporalRoundtrip
    split
    · rfl
    · simp [h]

/-- Witness for checkTemporalRoundtrip_guards: concrete instances of the
equal-candidate, missing-context, and missing-events clauses. -/
theorem checkTemporalRoundtrip_guards_witness :
    checkTemporalRoundtrip (some "a.example") (some "a.example")
        (some (SessionContext.mk (some []))) = false ∧
    checkTemporalRoundtrip (some "a.example") (some "b.example") none = false ∧
    checkTemporalRoundtrip (some "a.example") (some "b.example")
        (some (SessionContext.mk none)) = false :=
  ⟨checkTemporalRoundtrip_guards.2.2.1 (some "a.example") (some "a.example")
      (some (SessionContext.mk (some []))) rfl,
   checkTemporalRoundtrip_guards.2.2.2.1 (some "a.example") (some "b.example"),
   checkTemporalRoundtrip_guards.2.2.2.2.1 (some "a.example") (some "b.example")
      (SessionContext.mk none) rfl⟩

/-- C10: one updateActivityState call increments exactly the estimation
level's counter by one, leaves every other level's counter and every other
domain's record unchanged, and stamps last_account_touch_ts only for
ACCOUNT and last_transaction_signal_ts only for TRANSACTION. -/
theorem updateActivityState_frame (domain : String) (est : ActivityEstimation)
    (ts : ℤ) (m : String → Option DomainActivityRecord) :
    (((updateActivityState domain est ts m) domain).getD
        (initActivityRecord domain)).counts_by_level est.level =
      ((m domain).getD (initActivityRecord domain)).counts_by_level est.level
        + 1 ∧
    (∀ l : String, l ≠ est.level →
      (((updateActivityState domain est ts m) domain).getD
          (initActivityRecord domain)).counts_by_level l =
        ((m domain).getD (initActivityRecord domain)).counts_by_level l) ∧
    (∀ d : String, d ≠ domain → (updateActivityState domain est ts m) d = m d) ∧
    (((updateActivityState domain est ts m) domain).getD
        (initActivityRecord domain)).last_account_touch_ts =
      (if est.level = ActivityLevels.ACCOUNT then some ts
       else ((m domain).getD (initActivityRecord domain)).last_account_touch_ts) ∧
    (((updateActivityState domain est ts m) domain).getD
        (initActivityRecord domain)).last_transaction_signal_ts =
      (if est.level = ActivityLevels.TRANSACTION then some ts
       else ((m domain).getD
          (initActivityRecord domain)).last_transaction_signal_ts) := by
  refine ⟨?_, ?_, ?_, ?_, ?_⟩
  · simp [updateActivityState]
  · intro l hl
    simp [updateActivityState, hl]
  · intro d hd
    simp [updateActivityState, hd]
  · simp [updateActivityState]
  · simp [updateActivityState]

/-- Witness for updateActivityState_frame: the frame conditions evaluated
on an empty prior state map. -/
theorem updateActivityState_frame_witness :
    (((updateActivityState "shop.example"
          { level := "account", confidence := 9/10, reasons := ["url_login"] }
          42 (fun _ => none)) "shop.example").getD
        (initActivityRecord "shop.example")).counts_by_level "account" =
      (((fun _ => none : String → Option DomainActivityRecord)
          "shop.example").getD
        (initActivityRecord "shop.example")).counts_by_level "account" + 1 ∧
    (((updateActivityState "shop.example"
          { level := "account", confidence := 9/10, reasons := ["url_login"] }
          42 (fun _ => none)) "shop.example").getD
        (initActivityRecord "shop.example")).counts_by_level "ugc" =
      (((fun _ => none : String → Option DomainActivityRecord)
          "shop.example").getD
        (initActivityRecord "shop.example")).counts_by_level "ugc" ∧
    (updateActivityState "shop.example"
        { level := "account", confidence := 9/10, reasons := ["url_login"] }
        42 (fun _ => none)) "other.example" = none := by
  have h := updateActivityState_frame "shop.example"
    { level := "account", confidence := 9/10, reasons := ["url_login"] }
    42 (fun _ => none)
  exact ⟨h.1, h.2.1 "ugc" (by decide), h.2.2.1 "other.example" (by decide)⟩

/-- C1: when no signal matches the Evidence Weight Table, the aggregated
confidence never exceeds CAP_WITHOUT_STRONG_EVIDENCE, which is 0.6. -/
theorem evaluateSignals_aux_only_capped
    (auxContribution : String → ℚ) (signals : List String)
    (h : ∀ s ∈ signals, isStrongSignal s = false) :
    (evaluateSignals auxContribution signals).confidence ≤
      AUX_CONSTANTS.CAP_WITHOUT_STRONG_EVIDENCE ∧
    AUX_CONSTANTS.CAP_WITHOUT_STRONG_EVIDENCE = 6/10 := by
  constructor
  · have hfilt : (dedupFirst signals).filter isStrongSignal = [] := by
      refine List.filter_eq_nil_iff.mpr ?_
      intro a ha
      simp [h a (dedupFirst_subset signals a ha)]
    unfold evaluateSignals
    simp only [hfilt, List.map_nil, List.sum_nil, if_pos]
    exact min_le_right _ _
  · rfl

/-- Witness for evaluateSignals_aux_only_capped: all three auxiliary
signals together, with an oversized contribution function, stay at or
below the cap. -/
theorem evaluateSignals_aux_only_capped_witness :
    (evaluateSignals (fun _ => 2)
        ["dom_password", "dom_editor", "dom_payment"]).confidence ≤
      AUX_CONSTANTS.CAP_WITHOUT_STRONG_EVIDENCE ∧
    AUX_CONSTANTS.CAP_WITHOUT_STRONG_EVIDENCE = 6/10 :=
  evaluateSignals_aux_only_capped (fun _ => 2)
    ["dom_password", "dom_editor", "dom_payment"] (by decide)

/-- C8: the confidence of every estimation the (spec-modelled) evidence
aggregator produces is a rational number in [0,1] (the numeric contract
documented by the consumers in storage/management_state.js), not one of
the discrete ActivityConfidence labels declared in
src/signals/activity_levels.ts. -/
theorem evaluateSignals_confidence_bounds
    (auxContribution : String → ℚ) (signals : List String) :
    0 ≤ (evaluateSignals auxContribution signals).confidence ∧
    (evaluateSignals auxContribution signals).confidence ≤ 1 := by
  unfold evaluateSignals
  dsimp only
  constructor
  · split_ifs
    · exact le_min (le_max_left _ _) (by norm_num [AUX_CONSTANTS])
    · exact le_max_left _ _
  · split_ifs
    · exact le_trans (min_le_left _ _)
        (max_le (by norm_num) (min_le_left _ _))
    · exact max_le (by norm_num) (min_le_left _ _)

/-- C5: classification first drops explicit signals outside the known
vocabulary, so classifying any signal list gives exactly the result of
classifying its vocabulary-filtered sublist, and every reported reason is
a known vocabulary code. -/
theorem classify_drops_unknown_signals
    (auxContribution : String → ℚ) (url : String)
    (explicitSignals : List String) :
    classify auxContribution url explicitSignals =
      classify auxContribution url
        (explicitSignals.filter (fun s => decide (s ∈ SIGNAL_CODES))) ∧
    (classify auxContribution url explicitSignals).reasons.all
      (fun s => decide (s ∈ SIGNAL_CODES)) = true := by
  constructor
  · unfold classify
    rw [List.filter_filter]
    simp
  · refine List.all_eq_true.mpr ?_
    intro x hx
    unfold classify evaluateSignals at hx
    dsimp only at hx
    exact decide_eq_true
      (strongOrAux_mem_vocabulary x (List.mem_filter.mp hx).2)

/-- Witness-style concrete check for classify_drops_unknown_signals: an
unknown code changes nothing and never surfaces as a reason. -/
theorem classify_drops_unknown_signals_witness :
    classify (fun _ => 1/20) "https://shop.example/checkout"
        ["dom_payment", "totally_bogus_code"] =
      classify (fun _ => 1/20) "https://shop.example/checkout"
        (["dom_payment", "totally_bogus_code"].filter
          (fun s => decide (s ∈ SIGNAL_CODES))) ∧
    (classify (fun _ => 1/20) "https://shop.example/checkout"
        ["dom_payment", "totally_bogus_code"]).reasons.all
      (fun s => decide (s ∈ SIGNAL_CODES)) = true :=
  classify_drops_unknown_signals (fun _ => 1/20)
    "https://shop.example/checkout" ["dom_payment", "totally_bogus_code"]

/-- C7: extractRedirectUriDomain yields the eTLD+1 of the redirect_uri
parameter on the spec scenario, returns null when both parameters are
missing or the URL is malformed, depends on nothing but the two
parameters (given a parsable URL), and reproduces the repo's own
chapter3 test expectations. -/
theorem extractRedirectUriDomain_spec :
    extractRedirectUriDomain
        "https://accounts.example.com/o/oauth2/auth?redirect_uri=https%3A%2F%2Fapp.example.org%2Fcb" =
      some "example.org" ∧
    (∀ url : String,
      getParam url "redirect_uri" = none → getParam url "return_to" = none →
      extractRedirectUriDomain url = none) ∧
    (∀ url1 url2 : String,
      getParam url1 "redirect_uri" = getParam url2 "redirect_uri" →
      getParam url1 "return_to" = getParam url2 "return_to" →
      (schemeSplit url1.toList).isSome = true →
      (schemeSplit url2.toList).isSome = true →
      extractRedirectUriDomain url1 = extractRedirectUriDomain url2) ∧
    extractRedirectUriDomain "no-scheme-here" = none ∧
    extractRedirectUriDomain
        "https://login.live.com/oauth20_authorize.srf?client_id=123" = none ∧
    extractRedirectUriDomain
        "https://auth.example.com?return_to=https://app.example.com/dashboard" =
      some "example.com" ∧
    extractRedirectUriDomain
        "https://accounts.google.com/o/oauth2/auth?redirect_uri=https%3A%2F%2Fwww.twitter.com%2Fcallback&response_type=code" =
      some "twitter.com" := by
  refine ⟨by decide, ?_, ?_, by decide, by decide, by decide, by decide⟩
  · intro url h1 h2
    unfold extractRedirectUriDomain
    cases hs : schemeSplit url.toList with
    | none => rfl
    | some p => rw [h1, h2]
  · intro url1 url2 e1 e2 s1 s2
    obtain ⟨p1, hp1⟩ := Option.isSome_iff_exists.mp s1
    obtain ⟨p2, hp2⟩ := Option.isSome_iff_exists.mp s2
    unfold extractRedirectUriDomain
    rw [hp1, hp2, e1, e2]

/-- Witness for extractRedirectUriDomain_spec: a URL without either
parameter yields null, and two URLs agreeing on both parameters agree on
the result. -/
theorem extractRedirectUriDomain_spec_witness :
    extractRedirectUriDomain "https://example.com/path" = none ∧
    extractRedirectUriDomain "https://a.example/x?foo=1" =
      extractRedirectUriDomain "https://b.example/y?bar=2" :=
  ⟨extractRedirectUriDomain_spec.2.1 "https://example.com/path"
      (by decide) (by decide),
   extractRedirectUriDomain_spec.2.2.1 "https://a.example/x?foo=1"
      "https://b.example/y?bar=2" (by decide) (by decide) (by decide)
      (by decide)⟩


end PDTM

namespace PDTM

/-- C2: the risk score is round(clamp(base × confidence, 0, 100)) over the
fixed base table TRANSACTION=70, UGC=45, ACCOUNT=30, VIEW=5, with any
unrecognized level defaulting to the VIEW base 5; the result is always an
integer in {0,...,100}, and TRANSACTION at confidence 1.0 scores exactly
70. -/
theorem computeRiskScore_spec :
    computeBaseScore ActivityLevels.TRANSACTION = 70 ∧
    computeBaseScore ActivityLevels.UGC = 45 ∧
    computeBaseScore ActivityLevels.ACCOUNT = 30 ∧
    computeBaseScore ActivityLevels.VIEW = 5 ∧
    (∀ level : String,
      level ∉ [ActivityLevels.TRANSACTION, ActivityLevels.ACCOUNT,
        ActivityLevels.UGC, ActivityLevels.VIEW] →
      computeBaseScore level = 5) ∧
    (∀ (level : String) (confidence : ℚ),
      computeRiskScore (computeBaseScore level) confidence =
        jsRound (max 0 (min 100 (computeBaseScore level * confidence))) ∧
      0 ≤ computeRiskScore (computeBaseScore level) confidence ∧
      computeRiskScore (computeBaseScore level) confidence ≤ 100) ∧
    computeRiskScore (computeBaseScore ActivityLevels.TRANSACTION) 1 = 70 := by
  have hALs : ActivityLevels.TRANSACTION = "transaction" ∧
      ActivityLevels.ACCOUNT = "account" ∧ ActivityLevels.UGC = "ugc" ∧
      ActivityLevels.VIEW = "view" := ⟨rfl, rfl, rfl, rfl⟩
  refine ⟨by simp [computeBaseScore, hALs.1, hALs.2.1, hALs.2.2.1, hALs.2.2.2],
    by simp [computeBaseScore, hALs.1, hALs.2.1, hALs.2.2.1, hALs.2.2.2],
    by simp [computeBaseScore, hALs.1, hALs.2.1, hALs.2.2.1, hALs.2.2.2],
    by simp [computeBaseScore, hALs.1, hALs.2.1, hALs.2.2.1, hALs.2.2.2],
    ?_, ?_, ?_⟩
  · intro level h
    simp only [List.mem_cons, List.not_mem_nil, or_false, not_or] at h
    obtain ⟨h1, h2, h3, h4⟩ := h
    simp [computeBaseScore, h1, h2, h3, h4]
  · intro level confidence
    refine ⟨rfl, ?_, ?_⟩
    · have h0 : (0 : ℚ) ≤ max 0 (min 100 (computeBaseScore level * confidence)) :=
        le_max_left 0 _
      unfold computeRiskScore jsRound
      refine Int.le_floor.mpr ?_
      push_cast
      linarith
    · have h1 : max 0 (min 100 (computeBaseScore level * confidence)) ≤ 100 :=
        max_le (by norm_num) (min_le_left _ _)
      unfold computeRiskScore jsRound
      have h2 : ⌊max 0 (min 100 (computeBaseScore level * confidence)) + 1/2⌋ <
          (101 : ℤ) := by
        refine Int.floor_lt.mpr ?_
        push_cast
        linarith
      omega
  · have hb : computeBaseScore ActivityLevels.TRANSACTION = 70 := by
      simp [computeBaseScore]
    rw [hb]
    unfold computeRiskScore
    have hc : max (0:ℚ) (min 100 (70 * 1)) = 70 := by norm_num
    rw [hc]
    unfold jsRound
    rw [Int.floor_eq_iff]
    push_cast
    norm_num

/-- Witness for computeRiskScore_spec: the default-level clause and the
bounds clause at concrete inputs. -/
theorem computeRiskScore_spec_witness :
    computeBaseScore "banana" = 5 ∧
    0 ≤ computeRiskScore (computeBaseScore "banana") (7/9) ∧
    computeRiskScore (computeBaseScore ActivityLevels.UGC) (1/2) ≤ 100 := by
  refine ⟨computeRiskScore_spec.2.2.2.2.1 "banana" (by decide), ?_, ?_⟩
  · exact (computeRiskScore_spec.2.2.2.2.2.1 "banana" (7/9)).2.1
  · exact (computeRiskScore_spec.2.2.2.2.2.1 ActivityLevels.UGC (1/2)).2.2

/-- C3: isPinned forces PINNED unconditionally, and without isPinned the
decision never yields PINNED. -/
theorem mapToManagementState_pinned :
    (∀ (level : String) (score confidence : ℚ) (rp : Option String) (seen : ℕ),
      mapToManagementState level score confidence rp seen true =
        ManagementState.PINNED) ∧
    (∀ (level : String) (score confidence : ℚ) (rp : Option String) (seen : ℕ),
      mapToManagementState level score confidence rp seen false ≠
        ManagementState.PINNED) := by
  constructor
  · intro level score confidence rp seen
    simp [mapToManagementState]
  · intro level score confidence rp seen
    unfold mapToManagementState
    split_ifs <;> simp_all

/-- Witness for mapToManagementState_pinned: concrete instances of both
clauses. -/
theorem mapToManagementState_pinned_witness :
    mapToManagementState ActivityLevels.VIEW 0 0 none 0 true =
      ManagementState.PINNED ∧
    mapToManagementState ActivityLevels.TRANSACTION 70 1 none 0 false ≠
      ManagementState.PINNED :=
  ⟨mapToManagementState_pinned.1 ActivityLevels.VIEW 0 0 none 0,
   mapToManagementState_pinned.2 ActivityLevels.TRANSACTION 70 1 none 0⟩

/-- C4: without the pin override, the decision is SUGGESTED exactly when
confidence ≥ 0.8 and either the level is TRANSACTION, or it is ACCOUNT
with an inferred RP domain present or score ≥ 20; the spec scenario
(ACCOUNT, confidence 0.8, no relationship, score 15) lands in
NEEDS_REVIEW. -/
theorem mapToManagementState_suggested :
    (∀ (level : String) (score confidence : ℚ) (rp : Option String) (seen : ℕ),
      mapToManagementState level score confidence rp seen false =
          ManagementState.SUGGESTED ↔
        confidence ≥ 8/10 ∧
          (level = ActivityLevels.TRANSACTION ∨
            (level = ActivityLevels.ACCOUNT ∧ (jsTruthy rp ∨ score ≥ 20)))) ∧
    mapToManagementState ActivityLevels.ACCOUNT 15 (8/10) none 0 false =
      ManagementState.NEEDS_REVIEW := by
  constructor
  · intro level score confidence rp seen
    unfold mapToManagementState
    split_ifs with h1 h2 h3 h4 <;> simp_all
  · unfold mapToManagementState
    simp only [ActivityLevels.ACCOUNT, ActivityLevels.TRANSACTION,
      ActivityLevels.VIEW]
    norm_num [jsTruthy]
    simp

/-- C9: without the pin override and at level VIEW, the decision is
NEEDS_REVIEW exactly for visit counts above 50 and NONE otherwise; the
spec scenario (VIEW, 51 visits, confidence 0.1) yields NEEDS_REVIEW. -/
theorem mapToManagementState_view_frequency :
    (∀ (score confidence : ℚ) (rp : Option String) (seen : ℕ),
      mapToManagementState ActivityLevels.VIEW score confidence rp seen false =
        if seen > 50 then ManagementState.NEEDS_REVIEW
        else ManagementState.NONE) ∧
    mapToManagementState ActivityLevels.VIEW 1 (1/10) none 51 false =
      ManagementState.NEEDS_REVIEW := by
  constructor
  · intro score confidence rp seen
    unfold mapToManagementState
    split_ifs with h1 h2 h3 <;>
      simp_all [ActivityLevels.VIEW, ActivityLevels.TRANSACTION,
        ActivityLevels.ACCOUNT]
  · unfold mapToManagementState
    simp only [ActivityLevels.VIEW, ActivityLevels.TRANSACTION,
      ActivityLevels.ACCOUNT]
    norm_num [jsTruthy]

/-- Witness for mapToManagementState_suggested: the SUGGESTED criterion
instantiated at a concrete transaction input. -/
theorem mapToManagementState_suggested_witness :
    mapToManagementState ActivityLevels.TRANSACTION 70 1 none 0 false =
      ManagementState.SUGGESTED :=
  (mapToManagementState_suggested.1 ActivityLevels.TRANSACTION 70 1
    none 0).mpr ⟨by norm_num, Or.inl rfl⟩

/-- Witness for mapToManagementState_view_frequency: the frequency rule
instantiated at 51 visits. -/
theorem mapToManagementState_view_frequency_witness :
    mapToManagementState ActivityLevels.VIEW 2 (1/2) none 51 false =
      ManagementState.NEEDS_REVIEW := by
  have h := mapToManagementState_view_frequency.1 2 (1/2) none 51
  simpa using h

end PDTM
